import Mathlib

/-!
Verification development for the PubMed helper of the `genai-to-obsidian`
repository.  The definitions shallowly embed the Python sources:

* `src/lab/pubmed_lab/pubmed.py` — the `PubmedTools` toolkit: query building
  (`search_pubmed_advanced`), XML parsing (`parse_details`), caching and rate
  limiting (`_make_api_request`), citation search and metrics;
* `src/utils/key_manager.py` — `ApiKeyManager._load_env_vars`;
* `src/utils/api.py` — `initialize_client`.

Machine time is modelled by the rationals; Python `dict`s become association
lists; outbound HTTP and the wall clock are supplied by explicit "world"
records, so every function is executable and deterministic.
-/

/-! ### Python truthiness and string rendering helpers -/

/-- Truthiness of a Python value that is either `None` or a `str`:
`None` and `""` are falsy, every other string is truthy. -/
def truthyStr : Option String → Bool
  | none => false
  | some s => !s.isEmpty

/-- The underlying string of an optional string, `""` for `None`. -/
def strVal : Option String → String
  | none => ""
  | some s => s

/-- How a Python f-string renders a value that is `None` or a `str`:
`None` prints as `"None"`. -/
def pyStr : Option String → String
  | none => "None"
  | some s => s

/-- Python `x or y or d` on optional ints where `None` and `0` are falsy,
as used for `max_results or self.max_results or 10`. -/
def pyOrNat (o : Option Nat) (d : Nat) : Nat :=
  match o with
  | some n => if n == 0 then d else n
  | none => d

/-! ### XML documents (the fragment of `xml.etree.ElementTree` the code uses)

An element has a tag, an attribute list, optional text and child elements.
`Xml.desc` lists all proper descendants in document order, which is what
`findall(".//T")` iterates over. -/

inductive Xml where
  | elem (tag : String) (attrs : List (String × String)) (text : Option String)
      (children : List Xml)

def Xml.tag : Xml → String
  | .elem t _ _ _ => t

def Xml.attrs : Xml → List (String × String)
  | .elem _ a _ _ => a

def Xml.text : Xml → Option String
  | .elem _ _ t _ => t

def Xml.children : Xml → List Xml
  | .elem _ _ _ c => c

mutual

/-- All proper descendants of an element, in document (pre)order. -/
def Xml.desc : Xml → List Xml
  | .elem _ _ _ cs => descList cs

/-- Concatenation of each element of the list with its descendants. -/
def descList : List Xml → List Xml
  | [] => []
  | c :: cs => c :: (Xml.desc c ++ descList cs)

end

/-- `elem.get(key, default)`: attribute lookup with a default. -/
def Xml.getAttr (x : Xml) (k d : String) : String :=
  match x.attrs.find? (fun p => p.1 == k) with
  | some p => p.2
  | none => d

/-- `root.findall(".//tag")`: descendants with the given tag, document order. -/
def findAllDesc (x : Xml) (t : String) : List Xml :=
  x.desc.filter (fun c => c.tag == t)

/-- `root.find(".//tag")`. -/
def findDesc (x : Xml) (t : String) : Option Xml :=
  (findAllDesc x t).head?

/-- Children with a given tag (one relative path step). -/
def childrenTagged (x : Xml) (t : String) : List Xml :=
  x.children.filter (fun c => c.tag == t)

/-- `elem.find("tag")`: first child with the tag. -/
def findChild (x : Xml) (t : String) : Option Xml :=
  (childrenTagged x t).head?

/-- `root.findall(".//t1/t2")`: for each descendant tagged `t1`, its children
tagged `t2`. -/
def findAllDescChild (x : Xml) (t1 t2 : String) : List Xml :=
  (findAllDesc x t1).flatMap (fun a => childrenTagged a t2)

/-- `root.find(".//t1/t2")`. -/
def findDescChild (x : Xml) (t1 t2 : String) : Option Xml :=
  (findAllDescChild x t1 t2).head?

/-- `root.find(".//t1/t2[1]")` (used for `.//AuthorList/Author[1]`): the first
`t2` child of the first descendant `t1` that has one. -/
def findDescFirstChild (x : Xml) (t1 t2 : String) : Option Xml :=
  ((findAllDesc x t1).filterMap (fun a => findChild a t2)).head?

/-- `article.findall(".//ArticleIdList/ArticleId[@IdType=idType]")`. -/
def articleIdsOfType (x : Xml) (idType : String) : List Xml :=
  (findAllDesc x "ArticleIdList").flatMap
    (fun l => (childrenTagged l "ArticleId").filter
      (fun e => e.attrs.any (fun p => p.1 == "IdType" && p.2 == idType)))

/-! ### `parse_details` (src/lab/pubmed_lab/pubmed.py, lines 56-141; the copy
in src/lab/pubmed.py lines 42-127 is identical) -/

/-- The article record built by `parse_details`.  Fields that the Python code
can leave as `None` (element text that is missing) are `Option String`; fields
that are always strings are `String`. -/
structure Article where
  Published : Option String
  Title : Option String
  Summary : String
  First_Author : Option String
  DOI : Option String
  PubMed_URL : String
  Full_Text_URL : String
  Keywords : String
  MeSH_Terms : String
  Journal : Option String
  Publication_Type : String

/-- The element texts kept by loops of the form
`if elem.text: acc.append(elem.text)`. -/
def truthyTexts (l : List Xml) : List String :=
  l.filterMap (fun e =>
    match e.text with
    | some s => if s.isEmpty then none else some s
    | none => none)

/-- The body of the `for article in xml_root.findall(".//PubmedArticle")`
loop of `parse_details`, producing one record. -/
def parseArticle (article : Xml) : Article :=
  let pub_date := findDescChild article "PubDate" "Year"
  let title := findDesc article "ArticleTitle"
  let abstract_sections := findAllDesc article "AbstractText"
  let abstract_text :=
    if abstract_sections.isEmpty then "No abstract available"
    else
      (abstract_sections.foldl
        (fun acc sec =>
          let label := sec.getAttr "Label" ""
          if !label.isEmpty then acc ++ label ++ ": " ++ pyStr sec.text ++ "\n\n"
          else acc ++ pyStr sec.text ++ "\n\n") "").trim
  let first_author_elem := findDescFirstChild article "AuthorList" "Author"
  let first_author : Option String :=
    match first_author_elem with
    | none => some "Unknown"
    | some au =>
      match findChild au "LastName", findChild au "ForeName" with
      | some ln, some fn => some (pyStr ln.text ++ ", " ++ pyStr fn.text)
      | some ln, none => ln.text
      | none, _ => some "Unknown"
  let doi_elem := (articleIdsOfType article "doi").head?
  let doi : Option String :=
    match doi_elem with
    | some e => e.text
    | none => some "No DOI available"
  let pmid_elem := findDesc article "PMID"
  let pmid : Option String :=
    match pmid_elem with
    | some e => e.text
    | none => some ""
  let pubmed_url :=
    if truthyStr pmid then "https://pubmed.ncbi.nlm.nih.gov/" ++ strVal pmid ++ "/"
    else "No URL available"
  let pmc_elem := (articleIdsOfType article "pmc").head?
  let full_text_url :=
    match pmc_elem with
    | some e => "https://www.ncbi.nlm.nih.gov/pmc/articles/" ++ pyStr e.text ++ "/"
    | none =>
      match doi_elem with
      | some _ => "https://doi.org/" ++ pyStr doi
      | none => "Not available"
  let keywords := truthyTexts (findAllDescChild article "KeywordList" "Keyword")
  let mesh_terms := truthyTexts (findAllDescChild article "MeshHeading" "DescriptorName")
  let journal : Option String :=
    match findDescChild article "Journal" "Title" with
    | some e => e.text
    | none => some "Unknown Journal"
  let pub_types := truthyTexts (findAllDescChild article "PublicationTypeList" "PublicationType")
  { Published :=
      match pub_date with
      | some e => e.text
      | none => some "No date available"
    Title :=
      match title with
      | some e => e.text
      | none => some "No title available"
    Summary := abstract_text
    First_Author := first_author
    DOI := doi
    PubMed_URL := pubmed_url
    Full_Text_URL := full_text_url
    Keywords := if keywords.isEmpty then "No keywords available" else String.intercalate ", " keywords
    MeSH_Terms := if mesh_terms.isEmpty then "No MeSH terms available" else String.intercalate ", " mesh_terms
    Journal := journal
    Publication_Type := if pub_types.isEmpty then "Not specified" else String.intercalate ", " pub_types }

/-- `parse_details`: one record per `PubmedArticle` descendant of the root. -/
def parseDetails (xml_root : Xml) : List Article :=
  (findAllDesc xml_root "PubmedArticle").map parseArticle

/-! ### Arguments of `search_pubmed_advanced` (lines 190-206) -/

/-- The keyword arguments of `search_pubmed_advanced`, with the Python
defaults.  Optional strings are `Option String` (`None` = `none`). -/
structure AdvSearchArgs where
  query : Option String := none
  author : Option String := none
  journal : Option String := none
  publication_date : Option String := none
  publication_type : Option String := none
  sort_by : String := "relevance"
  filter_free_full_text : Bool := false
  mesh_terms : Option String := none
  field_restriction : Option String := none
  title_only : Bool := false
  abstract_only : Bool := false
  boolean_operator : String := "AND"
  affiliation : Option String := none
  cited_by_pmid : Option String := none
  max_results : Option Nat := none

/-! ### Query construction in `search_pubmed_advanced` (lines 236-286) -/

/-- The `query_terms` list (lines 237-257): the main query — with the
`title_only` / `abstract_only` / `field_restriction` variants — followed by
one quoted `[MeSH Terms]` clause per semicolon-separated MeSH term. -/
def queryTermsOf (a : AdvSearchArgs) : List String :=
  let query_terms : List String := []
  let query_terms :=
    if truthyStr a.query then
      if a.title_only then query_terms ++ ["(" ++ strVal a.query ++ ")[Title]"]
      else if a.abstract_only then query_terms ++ ["(" ++ strVal a.query ++ ")[Abstract]"]
      else if truthyStr a.field_restriction then
        query_terms ++ ["(" ++ strVal a.query ++ ")[" ++ strVal a.field_restriction ++ "]"]
      else query_terms ++ ["(" ++ strVal a.query ++ ")"]
    else query_terms
  if truthyStr a.mesh_terms then
    query_terms ++
      (((strVal a.mesh_terms).splitOn ";").map
        (fun term => "\"" ++ term.trim ++ "\"[MeSH Terms]"))
  else query_terms

/-- The `filters` list (lines 259-273). -/
def filtersOf (a : AdvSearchArgs) : List String :=
  let filters : List String := []
  let filters := if truthyStr a.author then filters ++ [strVal a.author ++ "[Author]"] else filters
  let filters :=
    if truthyStr a.journal then filters ++ ["\"" ++ strVal a.journal ++ "\"[Journal]"] else filters
  let filters :=
    if truthyStr a.publication_date then
      filters ++ [strVal a.publication_date ++ "[Date - Publication]"]
    else filters
  let filters :=
    if truthyStr a.publication_type then
      filters ++ ["\"" ++ strVal a.publication_type ++ "\"[Publication Type]"]
    else filters
  let filters := if a.filter_free_full_text then filters ++ ["free full text[Filter]"] else filters
  if truthyStr a.affiliation then filters ++ ["\"" ++ strVal a.affiliation ++ "\"[Affiliation]"]
  else filters

/-- `main_query` (lines 275-280): the query terms joined with the chosen
boolean operator, or the broad match `all[sb]` when there are none. -/
def mainQueryOf (a : AdvSearchArgs) : String :=
  if (queryTermsOf a).isEmpty then "all[sb]"
  else String.intercalate (" " ++ a.boolean_operator ++ " ") (queryTermsOf a)

/-- `final_query` (lines 282-286): filters are appended with `AND`. -/
def finalQueryOf (a : AdvSearchArgs) : String :=
  if (filtersOf a).isEmpty then mainQueryOf a
  else "(" ++ mainQueryOf a ++ ") AND (" ++ String.intercalate " AND " (filtersOf a) ++ ")"

/-- `sort_param` (lines 290-295). -/
def sortParamOf (sort_by : String) : String :=
  if sort_by == "pub_date" then "date"
  else if sort_by == "first_author" then "first_author"
  else "relevance"

/-! ### JSON serialization (`json.dumps` with its defaults) -/

/-- A lowercase hexadecimal digit. -/
def hexDigit (n : Nat) : Char :=
  if n < 10 then Char.ofNat (48 + n) else Char.ofNat (87 + n)

/-- Four lowercase hex digits, as in a JSON `\uXXXX` escape. -/
def hex4 (n : Nat) : String :=
  String.mk [hexDigit (n / 4096 % 16), hexDigit (n / 256 % 16), hexDigit (n / 16 % 16),
    hexDigit (n % 16)]

/-- `json.dumps` escaping of one character (default `ensure_ascii=True`:
non-ASCII becomes `\uXXXX`, astral characters a surrogate pair). -/
def jsonEscapeChar (c : Char) : String :=
  if c = '"' then "\\\""
  else if c = '\\' then "\\\\"
  else if c = '\n' then "\\n"
  else if c = '\r' then "\\r"
  else if c = '\t' then "\\t"
  else if c = '\x08' then "\\b"
  else if c = '\x0c' then "\\f"
  else if c.toNat < 32 then "\\u" ++ hex4 c.toNat
  else if c.toNat < 127 then String.singleton c
  else if c.toNat < 65536 then "\\u" ++ hex4 c.toNat
  else
    let v := c.toNat - 65536
    "\\u" ++ hex4 (55296 + v / 1024) ++ "\\u" ++ hex4 (56320 + v % 1024)

/-- `json.dumps` of a Python string. -/
def jsonString (s : String) : String :=
  "\"" ++ String.join (s.data.map jsonEscapeChar) ++ "\""

/-- `json.dumps` of a list of strings (default separator `", "`). -/
def jsonDumpsList (l : List String) : String :=
  "[" ++ String.intercalate ", " (l.map jsonString) ++ "]"

/-- A parameter value of an Entrez request: the code only puts strings and
ints into its `params` dicts. -/
inductive PVal where
  | s (v : String)
  | n (v : Nat)
deriving DecidableEq

/-- `json.dumps` of a parameter value. -/
def pvalJson : PVal → String
  | .s v => jsonString v
  | .n v => toString v

/-- `json.dumps` of a string-keyed dict (default separators `", "`/`": "`). -/
def jsonDumpsParams (ps : List (String × PVal)) : String :=
  "\x7b" ++ String.intercalate ", " (ps.map (fun p => jsonString p.1 ++ ": " ++ pvalJson p.2)) ++
    "\x7d"

/-- Ordering insertion for `sort_keys=True`. -/
def insertSortedParam (p : String × PVal) : List (String × PVal) → List (String × PVal)
  | [] => [p]
  | q :: qs => if (compare p.1 q.1).isLE then p :: q :: qs else q :: insertSortedParam p qs

/-- The parameter list sorted by key, as `json.dumps(..., sort_keys=True)`. -/
def sortByKey : List (String × PVal) → List (String × PVal)
  | [] => []
  | p :: ps => insertSortedParam p (sortByKey ps)

/-- Python dict assignment `params[k] = v`: overwrite an existing key in
place, otherwise append. -/
def setParam (ps : List (String × PVal)) (k : String) (v : PVal) : List (String × PVal) :=
  if ps.any (fun q => q.1 == k) then ps.map (fun q => if q.1 == k then (k, v) else q)
  else ps ++ [(k, v)]

/-! ### The `PubmedTools` instance state and `_make_api_request`
(lines 14-29 and 383-429) -/

/-- What an `httpx.Response` contributes to this code: its status code and
what `ElementTree.fromstring(response.content)` yields — a document, or the
exception message if the body does not parse. -/
structure Response where
  status_code : Nat
  content : Except String Xml

/-- A cache slot: `(time.time(), response)` at storage time. -/
structure CacheEntry where
  time : ℚ
  response : Response

/-- `dict` lookup in the cache. -/
def cacheLookup (c : List (String × CacheEntry)) (k : String) : Option CacheEntry :=
  (c.find? (fun p => p.1 == k)).map (fun p => p.2)

/-- Whether a key is present in the cache. -/
def cacheHasKey (c : List (String × CacheEntry)) (k : String) : Bool :=
  c.any (fun p => p.1 == k)

/-- `dict` assignment `self.cache[key] = entry`: overwrite the slot of an
existing key, otherwise append. -/
def cacheInsert : List (String × CacheEntry) → String → CacheEntry → List (String × CacheEntry)
  | [], k, e => [(k, e)]
  | p :: ps, k, e => if p.1 == k then (k, e) :: ps else p :: cacheInsert ps k e

/-- The mutable fields of a `PubmedTools` instance (constructor lines 14-29),
with time as a rational number of seconds. -/
structure PubmedTools where
  email : String := "your_email@example.com"
  max_results : Option Nat := none
  results_expanded : Bool := true
  api_key : Option String := none
  last_request_time : ℚ := 0
  cache : List (String × CacheEntry) := []
  cache_duration : ℚ := 86400

/-- The clock readings and HTTP outcome one `_make_api_request` call
observes: `t_check` is `time.time()` in the cache check, `t_now` the
`current_time` of the rate limiter, `httpResult` what `httpx.get` does
(a response, or an exception message), `t_after` and `t_store` the two
`time.time()` calls after the response. -/
structure ApiWorld where
  t_check : ℚ
  t_now : ℚ
  httpResult : Except String Response
  t_after : ℚ
  t_store : ℚ

/-- What one `_make_api_request` call did: its result (`Except.error` is a
re-raised exception), the instance state afterwards, whether the answer came
from the cache, whether an outbound HTTP request was issued, and how long
`time.sleep` was asked to wait. -/
structure ApiOutcome where
  result : Except String Response
  newState : PubmedTools
  fromCache : Bool
  issuedRequest : Bool
  sleptFor : ℚ

/-- The rate-limit interval: `0.34` seconds (line 412). -/
def minInterval : ℚ := 34 / 100

/-- The `params` dict after the required parameters are added
(lines 393-397). -/
def fullParams (st : PubmedTools) (params0 : List (String × PVal)) : List (String × PVal) :=
  let params := setParam params0 "tool" (PVal.s "agno-ai-pubmed-tool")
  let params := setParam params "email" (PVal.s st.email)
  if truthyStr st.api_key then setParam params "api_key" (PVal.s (strVal st.api_key)) else params

/-- The cache key `f"{url}:{json.dumps(params, sort_keys=True)}"`
(line 400). -/
def mkCacheKey (st : PubmedTools) (url : String) (params0 : List (String × PVal)) : String :=
  url ++ ":" ++ jsonDumpsParams (sortByKey (fullParams st params0))

/-- The non-cached path of `_make_api_request` (lines 409-429): rate-limit
sleep, the HTTP request, and caching of `200` responses. -/
def freshApiRequest (st : PubmedTools) (cache_key : String) (w : ApiWorld) : ApiOutcome :=
  let time_since_last := w.t_now - st.last_request_time
  let slp := if time_since_last < minInterval then minInterval - time_since_last else 0
  match w.httpResult with
  | .error e =>
    { result := .error e, newState := st, fromCache := false, issuedRequest := true,
      sleptFor := slp }
  | .ok r =>
    let st1 := { st with last_request_time := w.t_after }
    let st2 :=
      if r.status_code == 200 then
        { st1 with cache := cacheInsert st1.cache cache_key ⟨w.t_store, r⟩ }
      else st1
    { result := .ok r, newState := st2, fromCache := false, issuedRequest := true,
      sleptFor := slp }

/-- `_make_api_request` (lines 383-429). -/
def makeApiRequest (st : PubmedTools) (url : String) (params0 : List (String × PVal))
    (w : ApiWorld) : ApiOutcome :=
  let cache_key := mkCacheKey st url params0
  match cacheLookup st.cache cache_key with
  | some entry =>
    if w.t_check - entry.time < st.cache_duration then
      { result := .ok entry.response, newState := st, fromCache := true,
        issuedRequest := false, sleptFor := 0 }
    else freshApiRequest st cache_key w
  | none => freshApiRequest st cache_key w

/-- One element of a call sequence against `_make_api_request`. -/
structure ApiCall where
  url : String
  params : List (String × PVal)
  world : ApiWorld

/-- Run a sequence of `_make_api_request` calls, threading the state. -/
def applyCalls (st : PubmedTools) : List ApiCall → PubmedTools
  | [] => st
  | c :: cs => applyCalls (makeApiRequest st c.url c.params c.world).newState cs

/-! ### Result formatting and id extraction -/

/-- `[id_elem.text for id_elem in root.findall(".//Id") if id_elem.text is
not None]` (line 313). -/
def collectIds (root : Xml) : List String :=
  (findAllDesc root "Id").filterMap (fun e => e.text)

/-- The expanded per-article string (lines 328-340, also 163-175). -/
def formatExpanded (a : Article) : String :=
  "Published: " ++ pyStr a.Published ++ "\n" ++
  "Title: " ++ pyStr a.Title ++ "\n" ++
  "First Author: " ++ pyStr a.First_Author ++ "\n" ++
  "Journal: " ++ pyStr a.Journal ++ "\n" ++
  "Publication Type: " ++ a.Publication_Type ++ "\n" ++
  "DOI: " ++ pyStr a.DOI ++ "\n" ++
  "PubMed URL: " ++ a.PubMed_URL ++ "\n" ++
  "Full Text URL: " ++ a.Full_Text_URL ++ "\n" ++
  "Keywords: " ++ a.Keywords ++ "\n" ++
  "MeSH Terms: " ++ a.MeSH_Terms ++ "\n" ++
  "Summary:\n" ++ a.Summary

/-- The concise per-article string (lines 343-348): by Python's conditional-
expression grammar the whole three-line text is the `len > 200` branch and
`"Summary: ..."` alone is the other. -/
def formatConcise (a : Article) : String :=
  if a.Summary.length > 200 then
    "Title: " ++ pyStr a.Title ++ "\n" ++
    "Published: " ++ pyStr a.Published ++ "\n" ++
    "Summary: " ++ a.Summary.take 200 ++ "..."
  else "Summary: " ++ a.Summary

/-- The expanded per-article string of the citation search (lines 479-492),
which adds a `Cites: PMID ...` line. -/
def formatCitExpanded (pmid : String) (a : Article) : String :=
  "Published: " ++ pyStr a.Published ++ "\n" ++
  "Title: " ++ pyStr a.Title ++ "\n" ++
  "First Author: " ++ pyStr a.First_Author ++ "\n" ++
  "Journal: " ++ pyStr a.Journal ++ "\n" ++
  "Publication Type: " ++ a.Publication_Type ++ "\n" ++
  "DOI: " ++ pyStr a.DOI ++ "\n" ++
  "PubMed URL: " ++ a.PubMed_URL ++ "\n" ++
  "Full Text URL: " ++ a.Full_Text_URL ++ "\n" ++
  "Keywords: " ++ a.Keywords ++ "\n" ++
  "MeSH Terms: " ++ a.MeSH_Terms ++ "\n" ++
  "Cites: PMID " ++ pmid ++ "\n" ++
  "Summary:\n" ++ a.Summary

/-- The concise per-article string of the citation search (lines 494-501). -/
def formatCitConcise (pmid : String) (a : Article) : String :=
  if a.Summary.length > 200 then
    "Title: " ++ pyStr a.Title ++ "\n" ++
    "Published: " ++ pyStr a.Published ++ "\n" ++
    "Cites: PMID " ++ pmid ++ "\n" ++
    "Summary: " ++ a.Summary.take 200 ++ "..."
  else "Summary: " ++ a.Summary

/-! ### `search_pubmed` (lines 143-188) -/

/-- The I/O a `search_pubmed` call observes: what the `esearch` fetch-and-
parse of `fetch_pubmed_ids` and the `efetch` of `fetch_details` each yield —
a document or an exception message. -/
structure SearchWorld where
  esearch : Except String Xml
  efetch : Except String Xml

/-- The `try` body of `search_pubmed`. -/
def searchPubmedBody (st : PubmedTools) (query : String) (w : SearchWorld) :
    Except String String := do
  let ids_root ← w.esearch
  let _ids := collectIds ids_root
  let details_root ← w.efetch
  let articles := parseDetails details_root
  let results := articles.map (fun a => if st.results_expanded then formatExpanded a else formatConcise a)
  .ok (jsonDumpsList results)

/-- `search_pubmed`: the `try` body with its `except` clause (line 188). -/
def searchPubmed (st : PubmedTools) (query : String) (w : SearchWorld) : String :=
  match searchPubmedBody st query w with
  | .ok s => s
  | .error e => "Could not fetch articles. Error: " ++ e

/-! ### `_process_citation_search` (lines 431-508), `search_pubmed_advanced`
(lines 190-354) and `get_citation_metrics` (lines 510-605) -/

def esearchUrl : String := "https://eutils.ncbi.nlm.nih.gov/entrez/eutils/esearch.fcgi"

def elinkUrl : String := "https://eutils.ncbi.nlm.nih.gov/entrez/eutils/elink.fcgi"

/-- The `elink` params of the citation search (lines 444-450, 531-537). -/
def citationParams (pmid : String) : List (String × PVal) :=
  [("dbfrom", .s "pubmed"), ("db", .s "pubmed"), ("id", .s pmid),
   ("linkname", .s "pubmed_pubmed_citedin"), ("retmode", .s "xml")]

/-- The `elink` params of the related-articles lookup (lines 550-556). -/
def relatedParams (pmid : String) : List (String × PVal) :=
  [("dbfrom", .s "pubmed"), ("db", .s "pubmed"), ("id", .s pmid),
   ("linkname", .s "pubmed_pubmed"), ("retmode", .s "xml")]

/-- The `esearch` params of the advanced search (lines 302-309). -/
def advSearchParams (st : PubmedTools) (a : AdvSearchArgs) : List (String × PVal) :=
  [("db", .s "pubmed"), ("term", .s (finalQueryOf a)),
   ("retmax", .n (pyOrNat a.max_results (pyOrNat st.max_results 10))),
   ("email", .s st.email), ("usehistory", .s "y"), ("sort", .s (sortParamOf a.sort_by))]

/-- The request `search_pubmed_advanced` hands to `_make_api_request`:
the `elink` citation request when `cited_by_pmid` is truthy, otherwise the
`esearch` request for the constructed query. -/
structure Request where
  url : String
  params : List (String × PVal)
deriving DecidableEq

/-- The first (and only) `_make_api_request` request of a
`search_pubmed_advanced` call. -/
def advancedIssuedRequest (st : PubmedTools) (a : AdvSearchArgs) : Request :=
  if truthyStr a.cited_by_pmid then ⟨elinkUrl, citationParams (strVal a.cited_by_pmid)⟩
  else ⟨esearchUrl, advSearchParams st a⟩

/-- The `.//LinkSetDb/Link/Id` elements below one `LinkSet` (lines 457-460,
544-547). -/
def linkIdElems (link_set : Xml) : List Xml :=
  (findAllDesc link_set "LinkSetDb").flatMap
    (fun d => (childrenTagged d "Link").flatMap (fun l => childrenTagged l "Id"))

/-- `citing_ids` (lines 456-460): ids with truthy text. -/
def citingIds (link_root : Xml) : List String :=
  (findAllDesc link_root "LinkSet").flatMap (fun ls => truthyTexts (linkIdElems ls))

/-- `related_ids` (lines 562-566): ids with truthy text, the article's own
PMID excluded. -/
def relatedIds (link_root : Xml) (pmid : String) : List String :=
  (findAllDesc link_root "LinkSet").flatMap
    (fun ls => (linkIdElems ls).filterMap (fun e =>
      match e.text with
      | some s => if !s.isEmpty && s != pmid then some s else none
      | none => none))

/-- The I/O one `search_pubmed_advanced` or `_process_citation_search` call
observes: its `_make_api_request` world and the `fetch_details` outcome. -/
structure AdvWorld where
  api : ApiWorld
  efetch : Except String Xml

/-- The `try` body of `_process_citation_search`. -/
def processCitationSearchBody (st : PubmedTools) (pmid : String) (max_results : Option Nat)
    (w : AdvWorld) : Except String String := do
  let o := makeApiRequest st elinkUrl (citationParams pmid) w.api
  let response ← o.result
  let link_root ← response.content
  let citing := (citingIds link_root).take (pyOrNat max_results (pyOrNat st.max_results 10))
  if citing.isEmpty then
    .ok (jsonDumpsList ["No articles found citing PMID: " ++ pmid])
  else do
    let details_root ← w.efetch
    let articles := parseDetails details_root
    .ok (jsonDumpsList (articles.map (fun a =>
      if st.results_expanded then formatCitExpanded pmid a else formatCitConcise pmid a)))

/-- `_process_citation_search` with its own `except` clause (line 508). -/
def processCitationSearch (st : PubmedTools) (pmid : String) (max_results : Option Nat)
    (w : AdvWorld) : String :=
  match processCitationSearchBody st pmid max_results w with
  | .ok s => s
  | .error e => "Could not fetch citing articles. Error: " ++ e

/-- The `try` body of `search_pubmed_advanced`: the citation branch
(lines 232-234) or the query-building search branch (lines 236-351). -/
def searchPubmedAdvancedBody (st : PubmedTools) (a : AdvSearchArgs) (w : AdvWorld) :
    Except String String :=
  if truthyStr a.cited_by_pmid then
    .ok (processCitationSearch st (strVal a.cited_by_pmid) a.max_results w)
  else do
    let o := makeApiRequest st esearchUrl (advSearchParams st a) w.api
    let response ← o.result
    let root ← response.content
    let ids := collectIds root
    if ids.isEmpty then .ok (jsonDumpsList ["No articles found matching your criteria."])
    else do
      let details_root ← w.efetch
      let articles := parseDetails details_root
      .ok (jsonDumpsList (articles.map (fun art =>
        if st.results_expanded then formatExpanded art else formatConcise art)))

/-- `search_pubmed_advanced` with its `except` clause (lines 352-354). -/
def searchPubmedAdvanced (st : PubmedTools) (a : AdvSearchArgs) (w : AdvWorld) : String :=
  match searchPubmedAdvancedBody st a w with
  | .ok s => s
  | .error e => "Could not fetch articles with advanced search. Error: " ++ e

/-- The JSON error object `json.dumps({"error": f"No article found with
PMID: {pmid}"})` returned for an unknown PMID (line 525). -/
def noArticleError (pmid : String) : String :=
  "\x7b\"error\": " ++ jsonString ("No article found with PMID: " ++ pmid) ++ "\x7d"

/-- `json.dumps` of `None` or a string. -/
def jsonOptStr (v : Option String) : String :=
  match v with
  | some s => jsonString s
  | none => "null"

/-- One entry of `related_articles` (lines 576-583), serialized. -/
def relatedJson (a : Article) : String :=
  "\x7b\"Title\": " ++ jsonOptStr a.Title ++ ", \"Authors\": " ++ jsonOptStr a.First_Author ++
    ", \"Journal\": " ++ jsonOptStr a.Journal ++ ", \"Year\": " ++ jsonOptStr a.Published ++
    ", \"URL\": " ++ jsonString a.PubMed_URL ++ "\x7d"

/-- `json.dumps(metrics)` for the dict built in lines 586-599. -/
def metricsJson (article : Article) (citation_count : Nat) (related : List Article) : String :=
  "\x7b\"article\": \x7b\"title\": " ++ jsonOptStr article.Title ++
    ", \"authors\": " ++ jsonOptStr article.First_Author ++
    ", \"journal\": " ++ jsonOptStr article.Journal ++
    ", \"year\": " ++ jsonOptStr article.Published ++
    ", \"doi\": " ++ jsonOptStr article.DOI ++
    ", \"full_text_url\": " ++ jsonString article.Full_Text_URL ++
    "\x7d, \"citation_count\": " ++ toString citation_count ++
    ", \"mesh_terms\": " ++ jsonString article.MeSH_Terms ++
    ", \"publication_type\": " ++ jsonString article.Publication_Type ++
    ", \"related_articles\": [" ++ String.intercalate ", " (related.map relatedJson) ++ "]\x7d"

/-- The I/O a `get_citation_metrics` call observes: the first `fetch_details`
outcome, the worlds of its two `_make_api_request` calls, and the
`fetch_details` outcome for the related articles. -/
structure MetricsWorld where
  details : Except String Xml
  citedApi : ApiWorld
  relatedApi : ApiWorld
  relatedDetails : Except String Xml

/-- The `try` body of `get_citation_metrics` (lines 519-601). -/
def getCitationMetricsBody (st : PubmedTools) (pmid : String) (w : MetricsWorld) :
    Except String String := do
  let details_root ← w.details
  match parseDetails details_root with
  | [] => .ok (noArticleError pmid)
  | article :: _ => do
    let o1 := makeApiRequest st elinkUrl (citationParams pmid) w.citedApi
    let r1 ← o1.result
    let link_root ← r1.content
    let citing_ids := citingIds link_root
    let o2 := makeApiRequest o1.newState elinkUrl (relatedParams pmid) w.relatedApi
    let r2 ← o2.result
    let related_root ← r2.content
    let related_ids := (relatedIds related_root pmid).take 5
    if related_ids.isEmpty then
      .ok (metricsJson article citing_ids.length [])
    else do
      let related_details_root ← w.relatedDetails
      .ok (metricsJson article citing_ids.length (parseDetails related_details_root))

/-- `get_citation_metrics` with its `except` clause (lines 603-605). -/
def getCitationMetrics (st : PubmedTools) (pmid : String) (w : MetricsWorld) : String :=
  match getCitationMetricsBody st pmid w with
  | .ok s => s
  | .error e => "Could not fetch citation metrics. Error: " ++ e

/-! ### `ApiKeyManager._load_env_vars` (src/utils/key_manager.py, lines 22-44)
and `initialize_client` (src/utils/api.py, lines 11-28) -/

/-- `os.getenv` against an environment, modelled as an association list of
the state after `load_dotenv()`. -/
def getenv (env : List (String × String)) (k : String) : Option String :=
  (env.find? (fun p => p.1 == k)).map (fun p => p.2)

/-- The `ValueError` message listing the missing keys (line 40). -/
def missingKeysMsg (missing_keys : List String) : String :=
  "Required keys not found: " ++ String.intercalate ", " missing_keys ++
    ". Please check your .env file."

/-- `_load_env_vars`: walk the required keys, collecting missing ones
(unset or empty) and loading the rest; raise the `ValueError` naming the
missing keys, or return the loaded key/value mapping. -/
def loadEnvVars (env : List (String × String)) (required_keys : List String) :
    Except String (List (String × String)) :=
  let missing_keys := required_keys.filter (fun k => !truthyStr (getenv env k))
  let keys := (required_keys.filter (fun k => truthyStr (getenv env k))).map
    (fun k => (k, (getenv env k).getD ""))
  if missing_keys.isEmpty then .ok keys else .error (missingKeysMsg missing_keys)

/-- `initialize_client`: raise a `ValueError` when `GEMINI_API_KEY` is unset
or empty, else build the client around the key. -/
def initializeClient (env : List (String × String)) : Except String String :=
  let gemini_key := getenv env "GEMINI_API_KEY"
  if truthyStr gemini_key then .ok (strVal gemini_key)
  else .error "GEMINI_API_KEY not found. Please check your .env file."

/-! ### Claim-side definitions

These restate spec wording, to be compared with the definitions above. -/

/-- The clause the spec prescribes for one MeSH term: whitespace-trimmed,
double-quoted, tagged `[MeSH Terms]`. -/
def specMeshClause (term : String) : String :=
  "\"" ++ term.trim ++ "\"[MeSH Terms]"

/-- The spec's MeSH clauses: one per semicolon-separated piece of the
`mesh_terms` argument. -/
def specMeshClauses (mesh_terms : String) : List String :=
  ((mesh_terms.splitOn ";").map specMeshClause)

/-! ### Helper lemmas -/

theorem splitOnAux_ne_nil (s sep : String) (b i j : String.Pos) (r : List String) :
    String.splitOnAux s sep b i j r ≠ [] := by
  induction b, i, j, r using String.splitOnAux.induct s sep with
  | case1 b i j r h =>
    rw [String.splitOnAux]
    simp [h]
  | case2 b i j r h1 h2 i1 j1 h3 ih =>
    rw [String.splitOnAux]
    simp only [if_pos h2, if_neg h1, if_pos h3]
    exact ih
  | case3 b i j r h1 h2 i1 j1 h3 ih =>
    rw [String.splitOnAux]
    simp only [if_pos h2, if_neg h1, if_neg h3]
    exact ih
  | case4 b i j r h1 h2 ih =>
    rw [String.splitOnAux]
    simp only [if_neg h1, if_neg h2]
    exact ih

theorem splitOn_ne_nil (s sep : String) : s.splitOn sep ≠ [] := by
  rw [String.splitOn]
  split
  · simp
  · exact splitOnAux_ne_nil s sep 0 0 0 []

/-! ### C2 — placeholder values of `parse_details` -/

/-- C2: a record produced by `parse_details` carries the documented
placeholder string in every field whose source element is absent from the
XML: "No date available" (Published), "No title available" (Title),
"No abstract available" (Summary), "Unknown" (First_Author),
"No DOI available" (DOI), "No URL available" (PubMed_URL),
"Not available" (Full_Text_URL), "No keywords available" (Keywords),
"No MeSH terms available" (MeSH_Terms), "Unknown Journal" (Journal) and
"Not specified" (Publication_Type). -/
theorem parse_details_placeholder_fields (xml_root article : Xml)
    (hmem : article ∈ findAllDesc xml_root "PubmedArticle") :
    parseArticle article ∈ parseDetails xml_root
    ∧ (findAllDescChild article "PubDate" "Year" = [] →
        (parseArticle article).Published = some "No date available")
    ∧ (findAllDesc article "ArticleTitle" = [] →
        (parseArticle article).Title = some "No title available")
    ∧ (findAllDesc article "AbstractText" = [] →
        (parseArticle article).Summary = "No abstract available")
    ∧ (findDescFirstChild article "AuthorList" "Author" = none →
        (parseArticle article).First_Author = some "Unknown")
    ∧ (articleIdsOfType article "doi" = [] →
        (parseArticle article).DOI = some "No DOI available")
    ∧ (findAllDesc article "PMID" = [] →
        (parseArticle article).PubMed_URL = "No URL available")
    ∧ (articleIdsOfType article "pmc" = [] → articleIdsOfType article "doi" = [] →
        (parseArticle article).Full_Text_URL = "Not available")
    ∧ (findAllDescChild article "KeywordList" "Keyword" = [] →
        (parseArticle article).Keywords = "No keywords available")
    ∧ (findAllDescChild article "MeshHeading" "DescriptorName" = [] →
        (parseArticle article).MeSH_Terms = "No MeSH terms available")
    ∧ (findDescChild article "Journal" "Title" = none →
        (parseArticle article).Journal = some "Unknown Journal")
    ∧ (findAllDescChild article "PublicationTypeList" "PublicationType" = [] →
        (parseArticle article).Publication_Type = "Not specified") := by
  refine ⟨?_, ?_, ?_, ?_, ?_, ?_, ?_, ?_, ?_, ?_, ?_, ?_⟩
  · exact List.mem_map_of_mem parseArticle hmem
  · intro h
    simp [parseArticle, findDescChild, h]
  · intro h
    simp [parseArticle, findDesc, h]
  · intro h
    simp [parseArticle, h]
  · intro h
    simp [parseArticle, h]
  · intro h
    simp [parseArticle, h]
  · intro h
    have he : "".isEmpty = true := rfl
    simp [parseArticle, findDesc, h, truthyStr, he]
  · intro h1 h2
    simp [parseArticle, h1, h2]
  · intro h
    simp [parseArticle, truthyTexts, h]
  · intro h
    simp [parseArticle, truthyTexts, h]
  · intro h
    simp [parseArticle, h]
  · intro h
    simp [parseArticle, truthyTexts, h]

/-- Witness for C2 at a concrete document: a `PubmedArticle` with none of
the optional elements present yields every placeholder. -/
theorem parse_details_placeholder_fields_witness :
    (parseArticle (Xml.elem "PubmedArticle" [] none [])).Published = some "No date available"
    ∧ (parseArticle (Xml.elem "PubmedArticle" [] none [])).Title = some "No title available"
    ∧ (parseArticle (Xml.elem "PubmedArticle" [] none [])).Summary = "No abstract available"
    ∧ (parseArticle (Xml.elem "PubmedArticle" [] none [])).First_Author = some "Unknown"
    ∧ (parseArticle (Xml.elem "PubmedArticle" [] none [])).DOI = some "No DOI available"
    ∧ (parseArticle (Xml.elem "PubmedArticle" [] none [])).PubMed_URL = "No URL available"
    ∧ (parseArticle (Xml.elem "PubmedArticle" [] none [])).Full_Text_URL = "Not available"
    ∧ (parseArticle (Xml.elem "PubmedArticle" [] none [])).Keywords = "No keywords available"
    ∧ (parseArticle (Xml.elem "PubmedArticle" [] none [])).MeSH_Terms = "No MeSH terms available"
    ∧ (parseArticle (Xml.elem "PubmedArticle" [] none [])).Journal = some "Unknown Journal"
    ∧ (parseArticle (Xml.elem "PubmedArticle" [] none [])).Publication_Type = "Not specified" := by
  have h := parse_details_placeholder_fields
    (Xml.elem "Root" [] none [Xml.elem "PubmedArticle" [] none []])
    (Xml.elem "PubmedArticle" [] none []) (List.Mem.head _)
  exact ⟨h.2.1 rfl, h.2.2.1 rfl, h.2.2.2.1 rfl, h.2.2.2.2.1 rfl, h.2.2.2.2.2.1 rfl,
    h.2.2.2.2.2.2.1 rfl, h.2.2.2.2.2.2.2.1 rfl rfl, h.2.2.2.2.2.2.2.2.1 rfl,
    h.2.2.2.2.2.2.2.2.2.1 rfl, h.2.2.2.2.2.2.2.2.2.2.1 rfl, h.2.2.2.2.2.2.2.2.2.2.2 rfl⟩

/-! ### C1 — joining query terms and quoting MeSH terms -/

theorem ifAppendNeNil {l : List String} (b : Bool) (x : String) (h : l ≠ []) :
    (if b then l ++ [x] else l) ≠ [] := by
  cases b <;> simp [h]

theorem ifAppendNeNilTrue (b : Bool) (hb : b = true) (l : List String) (x : String) :
    (if b then l ++ [x] else l) ≠ [] := by
  subst hb
  simp

/-- C1: when `cited_by_pmid` is not provided, the query terms of
`search_pubmed_advanced` — the main query followed by the MeSH clauses — are
joined with the chosen `boolean_operator`, every MeSH term obtained by
splitting `mesh_terms` on semicolons appears trimmed, double-quoted and
tagged `[MeSH Terms]`, and the issued request is the `esearch` request for
the constructed query. -/
theorem advanced_query_mesh_join (a : AdvSearchArgs)
    (hc : truthyStr a.cited_by_pmid = false)
    (hm : truthyStr a.mesh_terms = true) :
    (∃ base : List String,
      queryTermsOf a = base ++ specMeshClauses (strVal a.mesh_terms)
      ∧ mainQueryOf a =
          String.intercalate (" " ++ a.boolean_operator ++ " ")
            (base ++ specMeshClauses (strVal a.mesh_terms)))
    ∧ (∀ term ∈ (strVal a.mesh_terms).splitOn ";", specMeshClause term ∈ queryTermsOf a)
    ∧ (∀ st : PubmedTools, advancedIssuedRequest st a = ⟨esearchUrl, advSearchParams st a⟩) := by
  have hmesh : specMeshClauses (strVal a.mesh_terms) =
      ((strVal a.mesh_terms).splitOn ";").map
        (fun term => "\"" ++ term.trim ++ "\"[MeSH Terms]") := rfl
  have hq : queryTermsOf a =
      (if truthyStr a.query then
         (if a.title_only then ["(" ++ strVal a.query ++ ")[Title]"]
          else if a.abstract_only then ["(" ++ strVal a.query ++ ")[Abstract]"]
          else if truthyStr a.field_restriction then
            ["(" ++ strVal a.query ++ ")[" ++ strVal a.field_restriction ++ "]"]
          else ["(" ++ strVal a.query ++ ")"])
       else []) ++ specMeshClauses (strVal a.mesh_terms) := by
    rw [hmesh, queryTermsOf]
    simp [hm]
  have hne : queryTermsOf a ≠ [] := by
    rw [hq]
    intro hcon
    rcases List.append_eq_nil.mp hcon with ⟨h1, h2⟩
    rw [hmesh] at h2
    exact splitOn_ne_nil (strVal a.mesh_terms) ";" (List.map_eq_nil_iff.mp h2)
  have hmain : mainQueryOf a =
      String.intercalate (" " ++ a.boolean_operator ++ " ") (queryTermsOf a) := by
    rw [mainQueryOf, if_neg]
    simp only [List.isEmpty_iff]
    exact hne
  refine ⟨⟨_, hq, ?_⟩, ?_, ?_⟩
  · rw [hmain, hq]
  · intro term ht
    rw [hq, hmesh]
    exact List.mem_append_right _ (List.mem_map_of_mem _ ht)
  · intro st
    simp [advancedIssuedRequest, hc]

/-- The concrete arguments of the C1 witness. -/
def c1Args : AdvSearchArgs :=
  { query := some "cancer", boolean_operator := "OR",
    mesh_terms := some "Diabetes Mellitus; Hypertension " }

/-- Witness for C1: a call with two semicolon-separated MeSH terms, a main
query and `boolean_operator = "OR"`. -/
theorem advanced_query_mesh_join_witness :
    (∃ base : List String,
      queryTermsOf c1Args = base ++ specMeshClauses (strVal c1Args.mesh_terms)
      ∧ mainQueryOf c1Args =
          String.intercalate (" " ++ c1Args.boolean_operator ++ " ")
            (base ++ specMeshClauses (strVal c1Args.mesh_terms)))
    ∧ (∀ term ∈ (strVal c1Args.mesh_terms).splitOn ";",
        specMeshClause term ∈ queryTermsOf c1Args)
    ∧ (∀ st : PubmedTools,
        advancedIssuedRequest st c1Args = ⟨esearchUrl, advSearchParams st c1Args⟩) :=
  advanced_query_mesh_join c1Args rfl rfl

/-! ### C9 — filters with no main query fall back to `all[sb]` -/

/-- C9: when neither `query` nor `mesh_terms` is provided but at least one
filter is set, the main query defaults to `all[sb]` and the final query is
`(all[sb]) AND (` followed by the filter clauses joined with ` AND ` and a
closing parenthesis. -/
theorem advanced_filters_only_query (a : AdvSearchArgs)
    (hq : truthyStr a.query = false)
    (hm : truthyStr a.mesh_terms = false)
    (hf : truthyStr a.author = true ∨ truthyStr a.journal = true
      ∨ truthyStr a.publication_date = true ∨ truthyStr a.publication_type = true
      ∨ a.filter_free_full_text = true ∨ truthyStr a.affiliation = true) :
    mainQueryOf a = "all[sb]"
    ∧ finalQueryOf a =
        "(all[sb]) AND (" ++ String.intercalate " AND " (filtersOf a) ++ ")" := by
  have hterms : queryTermsOf a = [] := by
    rw [queryTermsOf]
    simp [hq, hm]
  have hmain : mainQueryOf a = "all[sb]" := by
    rw [mainQueryOf]
    simp [hterms]
  have hfe : filtersOf a ≠ [] := by
    rw [filtersOf]
    rcases hf with h | h | h | h | h | h
    · exact ifAppendNeNil _ _ (ifAppendNeNil _ _ (ifAppendNeNil _ _ (ifAppendNeNil _ _
        (ifAppendNeNil _ _ (ifAppendNeNilTrue _ h _ _)))))
    · exact ifAppendNeNil _ _ (ifAppendNeNil _ _ (ifAppendNeNil _ _ (ifAppendNeNil _ _
        (ifAppendNeNilTrue _ h _ _))))
    · exact ifAppendNeNil _ _ (ifAppendNeNil _ _ (ifAppendNeNil _ _
        (ifAppendNeNilTrue _ h _ _)))
    · exact ifAppendNeNil _ _ (ifAppendNeNil _ _ (ifAppendNeNilTrue _ h _ _))
    · exact ifAppendNeNil _ _ (ifAppendNeNilTrue _ h _ _)
    · exact ifAppendNeNilTrue _ h _ _
  have hne2 : ¬((filtersOf a).isEmpty = true) := by
    simp only [List.isEmpty_iff]
    exact hfe
  refine ⟨hmain, ?_⟩
  rw [finalQueryOf, if_neg hne2, hmain]
  rfl

/-- Witness for C9: only the `author` filter is set. -/
theorem advanced_filters_only_query_witness :
    mainQueryOf { author := some "Smith JB" } = "all[sb]"
    ∧ finalQueryOf { author := some "Smith JB" } =
        "(all[sb]) AND (" ++
          String.intercalate " AND " (filtersOf { author := some "Smith JB" }) ++ ")" :=
  advanced_filters_only_query { author := some "Smith JB" } rfl rfl (Or.inl rfl)

/-! ### C3 / C10 — the cache expiry window and the cache-hit frame -/

/-- C3: when the cache key is present, `_make_api_request` answers from the
stored entry — returning its response without issuing an HTTP request — if
and only if the entry's age at the check, `t_check - entry.time`, is
strictly below `cache_duration`; a stale entry is never the result of the
lookup. -/
theorem cache_expiry_window (st : PubmedTools) (url : String)
    (params0 : List (String × PVal)) (w : ApiWorld) (entry : CacheEntry)
    (h : cacheLookup st.cache (mkCacheKey st url params0) = some entry) :
    ((makeApiRequest st url params0 w).fromCache = true
      ∧ (makeApiRequest st url params0 w).result = .ok entry.response
      ∧ (makeApiRequest st url params0 w).issuedRequest = false)
    ↔ w.t_check - entry.time < st.cache_duration := by
  simp only [makeApiRequest, h]
  split
  · rename_i hlt
    simpa using hlt
  · rename_i hlt
    rw [freshApiRequest]
    cases hr : w.httpResult <;> simp [hlt]

/-- C10: a fresh cache hit leaves the instance state — `last_request_time`
and the cache mapping — unchanged, sleeps for `0`, issues no request and
returns the stored response. -/
theorem cache_hit_frame (st : PubmedTools) (url : String)
    (params0 : List (String × PVal)) (w : ApiWorld) (entry : CacheEntry)
    (h : cacheLookup st.cache (mkCacheKey st url params0) = some entry)
    (hfresh : w.t_check - entry.time < st.cache_duration) :
    makeApiRequest st url params0 w =
      { result := .ok entry.response, newState := st, fromCache := true,
        issuedRequest := false, sleptFor := 0 } := by
  simp only [makeApiRequest, h]
  rw [if_pos hfresh]

/-! ### C4 — the rate-limiting delay -/

/-- C4: on the non-cached path, an HTTP request is issued; whenever the time
since `last_request_time` is below the configured `0.34` second interval the
method sleeps for exactly the remaining difference, so the request goes out
no earlier than `last_request_time + 0.34`. -/
theorem rate_limit_minimum (st : PubmedTools) (url : String)
    (params0 : List (String × PVal)) (w : ApiWorld)
    (hmiss : ∀ entry, cacheLookup st.cache (mkCacheKey st url params0) = some entry →
      ¬(w.t_check - entry.time < st.cache_duration)) :
    (makeApiRequest st url params0 w).issuedRequest = true
    ∧ (w.t_now - st.last_request_time < minInterval →
        (makeApiRequest st url params0 w).sleptFor =
          minInterval - (w.t_now - st.last_request_time))
    ∧ st.last_request_time + minInterval ≤
        w.t_now + (makeApiRequest st url params0 w).sleptFor := by
  have hfr : makeApiRequest st url params0 w =
      freshApiRequest st (mkCacheKey st url params0) w := by
    cases hl : cacheLookup st.cache (mkCacheKey st url params0) with
    | none => simp only [makeApiRequest, hl]
    | some entry =>
      simp only [makeApiRequest, hl]
      rw [if_neg (hmiss entry hl)]
  have hslp : (freshApiRequest st (mkCacheKey st url params0) w).sleptFor =
      (if w.t_now - st.last_request_time < minInterval then
        minInterval - (w.t_now - st.last_request_time) else 0) := by
    rw [freshApiRequest]
    cases hr : w.httpResult <;> rfl
  have hiss : (freshApiRequest st (mkCacheKey st url params0) w).issuedRequest = true := by
    rw [freshApiRequest]
    cases hr : w.httpResult <;> rfl
  rw [hfr]
  refine ⟨hiss, ?_, ?_⟩
  · intro hlt
    rw [hslp, if_pos hlt]
  · rw [hslp]
    split
    · rename_i hlt
      have : w.t_now + (minInterval - (w.t_now - st.last_request_time)) =
          st.last_request_time + minInterval := by ring
      rw [this]
    · rename_i hlt
      have := not_lt.mp hlt
      linarith

/-! ### C7 — the cache never evicts -/

theorem cacheInsert_hasKey_mono (c : List (String × CacheEntry)) (k0 k : String)
    (e : CacheEntry) (h : cacheHasKey c k = true) :
    cacheHasKey (cacheInsert c k0 e) k = true := by
  induction c with
  | nil => simp [cacheHasKey] at h
  | cons p ps ih =>
    rw [cacheInsert]
    by_cases hp : p.1 == k0
    · rw [if_pos hp]
      simp only [cacheHasKey, List.any_cons] at h ⊢
      rcases Bool.or_eq_true_iff.mp h with h1 | h1
      · have hpk : p.1 = k := by simpa using h1
        have hpk0 : p.1 = k0 := by simpa using hp
        have : k0 = k := hpk0 ▸ hpk
        simp [this]
      · simp [h1]
    · rw [if_neg hp]
      simp only [cacheHasKey, List.any_cons] at h ⊢
      rcases Bool.or_eq_true_iff.mp h with h1 | h1
      · simp [h1]
      · have := ih (by simpa [cacheHasKey] using h1)
        simp only [cacheHasKey] at this
        simp [this]

theorem cacheInsert_hasKey_self (c : List (String × CacheEntry)) (k : String)
    (e : CacheEntry) : cacheHasKey (cacheInsert c k e) k = true := by
  induction c with
  | nil => simp [cacheHasKey, cacheInsert]
  | cons p ps ih =>
    rw [cacheInsert]
    by_cases hp : p.1 == k
    · rw [if_pos hp]
      simp [cacheHasKey]
    · rw [if_neg hp]
      simp only [cacheHasKey, List.any_cons]
      simp only [cacheHasKey] at ih
      simp [ih]

theorem freshApiRequest_cache_mono (st : PubmedTools) (key : String) (w : ApiWorld)
    (k : String) (h : cacheHasKey st.cache k = true) :
    cacheHasKey (freshApiRequest st key w).newState.cache k = true := by
  rw [freshApiRequest]
  cases hr : w.httpResult with
  | error e => exact h
  | ok r =>
    dsimp only
    split
    · exact cacheInsert_hasKey_mono _ _ _ _ h
    · exact h

theorem makeApiRequest_cache_mono (st : PubmedTools) (url : String)
    (params0 : List (String × PVal)) (w : ApiWorld) (k : String)
    (h : cacheHasKey st.cache k = true) :
    cacheHasKey (makeApiRequest st url params0 w).newState.cache k = true := by
  cases hl : cacheLookup st.cache (mkCacheKey st url params0) with
  | some entry =>
    simp only [makeApiRequest, hl]
    split
    · exact h
    · exact freshApiRequest_cache_mono _ _ _ _ h
  | none =>
    simp only [makeApiRequest, hl]
    exact freshApiRequest_cache_mono _ _ _ _ h

/-- C7: no `_make_api_request` call ever removes a cache key — across every
sequence of calls the key set is nondecreasing — and every fresh `200`
response adds (or overwrites) the entry under its request's cache key. -/
theorem cache_never_evicts :
    (∀ (calls : List ApiCall) (st : PubmedTools) (k : String),
      cacheHasKey st.cache k = true → cacheHasKey (applyCalls st calls).cache k = true)
    ∧ (∀ (st : PubmedTools) (url : String) (params0 : List (String × PVal))
        (w : ApiWorld) (r : Response),
        (makeApiRequest st url params0 w).result = .ok r →
        (makeApiRequest st url params0 w).fromCache = false →
        r.status_code = 200 →
        cacheHasKey (makeApiRequest st url params0 w).newState.cache
          (mkCacheKey st url params0) = true) := by
  constructor
  · intro calls
    induction calls with
    | nil => intro st k h; exact h
    | cons c cs ih =>
      intro st k h
      exact ih _ _ (makeApiRequest_cache_mono st c.url c.params c.world k h)
  · intro st url params0 w r hok hfc h200
    cases hl : cacheLookup st.cache (mkCacheKey st url params0) with
    | some entry =>
      simp only [makeApiRequest, hl] at hok hfc ⊢
      by_cases hlt : w.t_check - entry.time < st.cache_duration
      · rw [if_pos hlt] at hfc
        simp at hfc
      · rw [if_neg hlt] at hok ⊢
        rw [freshApiRequest] at hok ⊢
        cases hr : w.httpResult with
        | error e =>
          rw [hr] at hok
          simp at hok
        | ok r2 =>
          rw [hr] at hok
          have hr2 : r2 = r := by simpa using hok
          subst hr2
          dsimp only
          rw [if_pos (by simpa using h200)]
          exact cacheInsert_hasKey_self _ _ _
    | none =>
      simp only [makeApiRequest, hl] at hok ⊢
      rw [freshApiRequest] at hok ⊢
      cases hr : w.httpResult with
      | error e =>
        rw [hr] at hok
        simp at hok
      | ok r2 =>
        rw [hr] at hok
        have hr2 : r2 = r := by simpa using hok
        subst hr2
        dsimp only
        rw [if_pos (by simpa using h200)]
        exact cacheInsert_hasKey_self _ _ _

/-! ### Concrete states for the cache witnesses -/

/-- A `PubmedTools` instance with the constructor defaults. -/
def stBase : PubmedTools := {}

/-- A successful `200` response with a parsed body. -/
def resp0 : Response :=
  { status_code := 200, content := .ok (Xml.elem "eSearchResult" [] none []) }

/-- A cache entry stored at time `0`. -/
def entry0 : CacheEntry := { time := 0, response := resp0 }

/-- The instance with `entry0` cached under the `esearch` key for empty
extra parameters. -/
def st0 : PubmedTools := { stBase with cache := [(mkCacheKey stBase esearchUrl [], entry0)] }

/-- A world five seconds in, whose HTTP request fails. -/
def w0 : ApiWorld := { t_check := 5, t_now := 5, httpResult := .error "down", t_after := 5,
                       t_store := 5 }

/-- A world five seconds in, whose HTTP request succeeds with `resp0`. -/
def wOk : ApiWorld := { t_check := 5, t_now := 5, httpResult := .ok resp0, t_after := 5,
                        t_store := 5 }

/-- A world a tenth of a second in, whose HTTP request succeeds. -/
def wSoon : ApiWorld := { t_check := 1/10, t_now := 1/10, httpResult := .ok resp0,
                          t_after := 1/2, t_store := 1/2 }

theorem entry0_fresh_at_w0 : w0.t_check - entry0.time < st0.cache_duration := by
  show (5 : ℚ) - 0 < 86400
  norm_num

theorem wSoon_within_interval : wSoon.t_now - stBase.last_request_time < minInterval := by
  show (1 : ℚ)/10 - 0 < 34/100
  norm_num

/-- Witness for C3 at the concrete cached state. -/
theorem cache_expiry_window_witness :
    ((makeApiRequest st0 esearchUrl [] w0).fromCache = true
      ∧ (makeApiRequest st0 esearchUrl [] w0).result = .ok entry0.response
      ∧ (makeApiRequest st0 esearchUrl [] w0).issuedRequest = false)
    ↔ w0.t_check - entry0.time < st0.cache_duration :=
  cache_expiry_window st0 esearchUrl [] w0 entry0 rfl

/-- Witness for C10: the fresh hit leaves `st0` untouched. -/
theorem cache_hit_frame_witness :
    makeApiRequest st0 esearchUrl [] w0 =
      { result := .ok entry0.response, newState := st0, fromCache := true,
        issuedRequest := false, sleptFor := 0 } :=
  cache_hit_frame st0 esearchUrl [] w0 entry0 rfl entry0_fresh_at_w0

/-- Witness for C4: a call `0.1` seconds after the last request sleeps for
the remaining `0.24` seconds. -/
theorem rate_limit_minimum_witness :
    (makeApiRequest stBase esearchUrl [] wSoon).issuedRequest = true
    ∧ (makeApiRequest stBase esearchUrl [] wSoon).sleptFor =
        minInterval - (wSoon.t_now - stBase.last_request_time)
    ∧ stBase.last_request_time + minInterval ≤
        wSoon.t_now + (makeApiRequest stBase esearchUrl [] wSoon).sleptFor :=
  have h := rate_limit_minimum stBase esearchUrl [] wSoon (fun entry he => nomatch he)
  ⟨h.1, h.2.1 wSoon_within_interval, h.2.2⟩

/-- Witness for C7: a stored key survives a later successful call, and a
fresh `200` response stores its own key. -/
theorem cache_never_evicts_witness :
    cacheHasKey (applyCalls st0 [⟨esearchUrl, [], wOk⟩]).cache
      (mkCacheKey stBase esearchUrl []) = true
    ∧ cacheHasKey (makeApiRequest stBase esearchUrl [] wOk).newState.cache
        (mkCacheKey stBase esearchUrl []) = true :=
  ⟨cache_never_evicts.1 [⟨esearchUrl, [], wOk⟩] st0 (mkCacheKey stBase esearchUrl []) rfl,
   cache_never_evicts.2 stBase esearchUrl [] wOk resp0 rfl rfl rfl⟩

/-! ### C5 — exceptions are converted to error strings -/

theorem exceptOkBind {e a b : Type} (x : a) (f : a → Except e b) :
    (Except.ok x >>= f : Except e b) = f x := rfl

/-- C5: `search_pubmed`, `search_pubmed_advanced` and `get_citation_metrics`
always return a string: an exception anywhere in the body is caught and
converted to the documented human-readable error message, and an unknown
PMID makes `get_citation_metrics` return the JSON error object. -/
theorem public_errors_converted (st : PubmedTools) (q : String) (a : AdvSearchArgs)
    (pmid : String) (w1 : SearchWorld) (w2 : AdvWorld) (w3 : MetricsWorld) :
    ((∃ s, searchPubmedBody st q w1 = .ok s ∧ searchPubmed st q w1 = s)
      ∨ (∃ e, searchPubmedBody st q w1 = .error e
          ∧ searchPubmed st q w1 = "Could not fetch articles. Error: " ++ e))
    ∧ ((∃ s, searchPubmedAdvancedBody st a w2 = .ok s ∧ searchPubmedAdvanced st a w2 = s)
      ∨ (∃ e, searchPubmedAdvancedBody st a w2 = .error e
          ∧ searchPubmedAdvanced st a w2 =
              "Could not fetch articles with advanced search. Error: " ++ e))
    ∧ ((∃ s, getCitationMetricsBody st pmid w3 = .ok s ∧ getCitationMetrics st pmid w3 = s)
      ∨ (∃ e, getCitationMetricsBody st pmid w3 = .error e
          ∧ getCitationMetrics st pmid w3 = "Could not fetch citation metrics. Error: " ++ e))
    ∧ (∀ details_root, w3.details = .ok details_root → parseDetails details_root = [] →
        getCitationMetrics st pmid w3 = noArticleError pmid) := by
  refine ⟨?_, ?_, ?_, ?_⟩
  · cases hb : searchPubmedBody st q w1 with
    | ok s => exact Or.inl ⟨s, rfl, by rw [searchPubmed, hb]⟩
    | error e => exact Or.inr ⟨e, rfl, by rw [searchPubmed, hb]⟩
  · cases hb : searchPubmedAdvancedBody st a w2 with
    | ok s => exact Or.inl ⟨s, rfl, by rw [searchPubmedAdvanced, hb]⟩
    | error e => exact Or.inr ⟨e, rfl, by rw [searchPubmedAdvanced, hb]⟩
  · cases hb : getCitationMetricsBody st pmid w3 with
    | ok s => exact Or.inl ⟨s, rfl, by rw [getCitationMetrics, hb]⟩
    | error e => exact Or.inr ⟨e, rfl, by rw [getCitationMetrics, hb]⟩
  · intro details_root hroot hempty
    have hb : getCitationMetricsBody st pmid w3 = .ok (noArticleError pmid) := by
      simp only [getCitationMetricsBody, hroot, exceptOkBind, hempty]
    rw [getCitationMetrics, hb]

/-! ### C6 — required keys are enforced at startup -/

theorem find_map_pair (f : String → String) (l : List String) (k : String) (hk : k ∈ l) :
    (l.map (fun x => (x, f x))).find? (fun p => p.1 == k) = some (k, f k) := by
  induction l with
  | nil => cases hk
  | cons x xs ih =>
    by_cases hx : (x == k) = true
    · have hxk : x = k := by simpa using hx
      subst hxk
      simp [List.find?]
    · have : k ∈ xs := by
        cases hk with
        | head => simp at hx
        | tail _ h => exact h
      simp only [List.map_cons, List.find?, hx]
      exact ih this

/-- C6: construction of `ApiKeyManager` raises the `ValueError` naming every
required key that is unset or empty, and succeeds storing each key's value
otherwise; `initialize_client` raises its `ValueError` exactly when
`GEMINI_API_KEY` is unset or empty. -/
theorem required_keys_enforced (env : List (String × String)) (required_keys : List String) :
    (required_keys.filter (fun k => !truthyStr (getenv env k)) ≠ [] →
      loadEnvVars env required_keys =
        .error (missingKeysMsg (required_keys.filter (fun k => !truthyStr (getenv env k)))))
    ∧ (required_keys.filter (fun k => !truthyStr (getenv env k)) = [] →
        ∃ ks, loadEnvVars env required_keys = .ok ks
          ∧ ∀ k ∈ required_keys,
              (ks.find? (fun p => p.1 == k)).map (fun p => p.2) = getenv env k)
    ∧ (truthyStr (getenv env "GEMINI_API_KEY") = false →
        initializeClient env = .error "GEMINI_API_KEY not found. Please check your .env file.")
    ∧ (truthyStr (getenv env "GEMINI_API_KEY") = true →
        initializeClient env = .ok (strVal (getenv env "GEMINI_API_KEY"))) := by
  refine ⟨?_, ?_, ?_, ?_⟩
  · intro hne
    rw [loadEnvVars, if_neg]
    simp only [List.isEmpty_iff]
    exact hne
  · intro hnil
    have hall : ∀ k ∈ required_keys, truthyStr (getenv env k) = true := by
      intro k hk
      have := List.filter_eq_nil_iff.mp hnil k hk
      simpa using this
    have hfull : required_keys.filter (fun k => truthyStr (getenv env k)) = required_keys :=
      List.filter_eq_self.mpr (fun k hk => hall k hk)
    refine ⟨(required_keys.filter (fun k => truthyStr (getenv env k))).map
      (fun k => (k, (getenv env k).getD "")), ?_, ?_⟩
    · rw [loadEnvVars, if_pos]
      simp only [List.isEmpty_iff]
      exact hnil
    · intro k hk
      rw [hfull]
      rw [find_map_pair (fun x => (getenv env x).getD "") required_keys k hk]
      cases hg : getenv env k with
      | none =>
        have := hall k hk
        rw [hg] at this
        simp [truthyStr] at this
      | some v => simp [hg]
  · intro hfalse
    rw [initializeClient, if_neg]
    rw [hfalse]
    simp
  · intro htrue
    rw [initializeClient, if_pos htrue]

/-- Witness for C6: a missing key `B` aborts with the error naming it; with
the keys present loading and client initialization succeed. -/
theorem required_keys_enforced_witness :
    loadEnvVars [("A", "x")] ["A", "B"] =
      .error (missingKeysMsg
        (["A", "B"].filter (fun k => !truthyStr (getenv [("A", "x")] k))))
    ∧ (∃ ks, loadEnvVars [("GEMINI_API_KEY", "g")] ["GEMINI_API_KEY"] = .ok ks
        ∧ ∀ k ∈ ["GEMINI_API_KEY"],
            (ks.find? (fun p => p.1 == k)).map (fun p => p.2) =
              getenv [("GEMINI_API_KEY", "g")] k)
    ∧ initializeClient [] = .error "GEMINI_API_KEY not found. Please check your .env file."
    ∧ initializeClient [("GEMINI_API_KEY", "g")] =
        .ok (strVal (getenv [("GEMINI_API_KEY", "g")] "GEMINI_API_KEY")) :=
  ⟨(required_keys_enforced [("A", "x")] ["A", "B"]).1 (by decide),
   (required_keys_enforced [("GEMINI_API_KEY", "g")] ["GEMINI_API_KEY"]).2.1 (by decide),
   (required_keys_enforced [] []).2.2.1 rfl,
   (required_keys_enforced [("GEMINI_API_KEY", "g")] []).2.2.2 rfl⟩

/-! ### C8 — the citation branch ignores the other search arguments -/

/-- C8: when `cited_by_pmid` is provided and non-empty,
`search_pubmed_advanced` returns exactly what `_process_citation_search`
produces from the PMID and `max_results`, issues the `elink` citation
request, and two argument records agreeing on `cited_by_pmid` and
`max_results` produce the same request and the same result. -/
theorem citation_search_dispatch (st : PubmedTools) (a : AdvSearchArgs) (w : AdvWorld)
    (h : truthyStr a.cited_by_pmid = true) :
    searchPubmedAdvanced st a w =
      processCitationSearch st (strVal a.cited_by_pmid) a.max_results w
    ∧ advancedIssuedRequest st a = ⟨elinkUrl, citationParams (strVal a.cited_by_pmid)⟩
    ∧ (∀ a2 : AdvSearchArgs, a2.cited_by_pmid = a.cited_by_pmid →
        a2.max_results = a.max_results →
        searchPubmedAdvanced st a2 w = searchPubmedAdvanced st a w
        ∧ advancedIssuedRequest st a2 = advancedIssuedRequest st a) := by
  have hdisp : ∀ b : AdvSearchArgs, truthyStr b.cited_by_pmid = true →
      searchPubmedAdvanced st b w =
        processCitationSearch st (strVal b.cited_by_pmid) b.max_results w := by
    intro b hb
    rw [searchPubmedAdvanced, searchPubmedAdvancedBody, if_pos hb]
  refine ⟨hdisp a h, ?_, ?_⟩
  · rw [advancedIssuedRequest, if_pos h]
  · intro a2 h2 h3
    have h2t : truthyStr a2.cited_by_pmid = true := by rw [h2]; exact h
    constructor
    · rw [hdisp a2 h2t, hdisp a h, h2, h3]
    · rw [advancedIssuedRequest, if_pos h2t, advancedIssuedRequest, if_pos h, h2]

/-- The concrete arguments of the C8 witness: only the citation arguments
are set, plus a decoy query. -/
def c8Args : AdvSearchArgs :=
  { query := some "ignored", cited_by_pmid := some "12345", max_results := some 5 }

/-- A concrete world for the C8 witness. -/
def wAdv : AdvWorld := { api := wOk, efetch := .error "offline" }

/-- Witness for C8 at concrete arguments. -/
theorem citation_search_dispatch_witness :
    searchPubmedAdvanced stBase c8Args wAdv =
      processCitationSearch stBase (strVal c8Args.cited_by_pmid) c8Args.max_results wAdv
    ∧ advancedIssuedRequest stBase c8Args =
        ⟨elinkUrl, citationParams (strVal c8Args.cited_by_pmid)⟩
    ∧ (∀ a2 : AdvSearchArgs, a2.cited_by_pmid = c8Args.cited_by_pmid →
        a2.max_results = c8Args.max_results →
        searchPubmedAdvanced stBase a2 wAdv = searchPubmedAdvanced stBase c8Args wAdv
        ∧ advancedIssuedRequest stBase a2 = advancedIssuedRequest stBase c8Args) :=
  citation_search_dispatch stBase c8Args wAdv rfl

/-- A search world whose fetches fail. -/
def w1c : SearchWorld := { esearch := .error "boom", efetch := .error "boom" }

/-- A metrics world whose first fetch parses to a document containing no
`PubmedArticle`. -/
def w3c : MetricsWorld :=
  { details := .ok (Xml.elem "PubmedArticleSet" [] none []), citedApi := wOk,
    relatedApi := wOk, relatedDetails := .error "offline" }

/-- Witness for C5: a failing fetch is converted to the error string, and an
unknown PMID yields the JSON error object. -/
theorem public_errors_converted_witness :
    ((∃ s, searchPubmedBody stBase "malaria" w1c = .ok s
        ∧ searchPubmed stBase "malaria" w1c = s)
      ∨ (∃ e, searchPubmedBody stBase "malaria" w1c = .error e
          ∧ searchPubmed stBase "malaria" w1c = "Could not fetch articles. Error: " ++ e))
    ∧ getCitationMetrics stBase "999" w3c = noArticleError "999" :=
  ⟨(public_errors_converted stBase "malaria" c8Args "999" w1c wAdv w3c).1,
   (public_errors_converted stBase "malaria" c8Args "999" w1c wAdv w3c).2.2.2
     (Xml.elem "PubmedArticleSet" [] none []) rfl rfl⟩
